import Mathlib

/-!
Verification of the schema/type-resolution engine of `target-sqlserver`
(`target_sqlserver/connector.py` and `target_sqlserver/target.py`).

The connector works on SQLAlchemy type *objects*.  The closed set of type
objects this module can ever construct or feed into its type merger is:
`HexByteString()`, mssql `JSON()`, `UNIQUEIDENTIFIER()`, mssql `NVARCHAR`
(with optional length), `DATETIME()`, `DATE()`, `TIME()`, `DECIMAL()`,
mssql `BIGINT()`, mssql `BIT()` and `NOTYPE()`.  `SqlType` below enumerates
exactly these values; `isinstanceOf` embeds Python's `isinstance` against
the classes named in `pick_best_sql_type`'s precedence list.  Notes on the
class hierarchy that the embedding encodes:
  * `NOTYPE` is a `TypeDecorator` whose `impl` is `NVARCHAR`; a
    `TypeDecorator` instance is *not* an `isinstance` of its `impl` class,
    so `NOTYPE()` matches only the `NOTYPE` entry.
  * likewise `HexByteString` (impl `VARBINARY`) matches only itself.
  * no constructed object is a plain 32-bit `INTEGER`: the mapper turns
    JSON-schema `integer` into mssql `BIGINT`, and mssql `BIGINT` is not a
    subclass of `sqlalchemy.types.INTEGER`.  The `INTEGER` entry of the
    precedence list is therefore never matched.
-/

/-- The closed universe of SQLAlchemy type objects constructed by
`target_sqlserver.connector` (see module comment). `nvarchar` carries the
optional length (`NVARCHAR(450)` vs unbounded `NVARCHAR()`). -/
inductive SqlType where
  | hexByteString
  | json
  | uniqueidentifier
  | nvarchar (size : Option Nat)
  | datetime
  | date
  | time
  | decimal
  | bigint
  | bit
  | notype
deriving DecidableEq, Repr

/-- The classes named in `pick_best_sql_type`'s `precedence_order` list. -/
inductive PrecClass where
  | HexByteString
  | JSON
  | UNIQUEIDENTIFIER
  | NVARCHAR
  | DATETIME
  | DATE
  | TIME
  | DECIMAL
  | BIGINT
  | INTEGER
  | BIT
  | NOTYPE
deriving DecidableEq, Repr

/-- Python `isinstance(obj, cls)` restricted to the universe of objects the
connector constructs and the classes of the precedence list. -/
def isinstanceOf : SqlType → PrecClass → Bool
  | .hexByteString, .HexByteString => true
  | .json, .JSON => true
  | .uniqueidentifier, .UNIQUEIDENTIFIER => true
  | .nvarchar _, .NVARCHAR => true
  | .datetime, .DATETIME => true
  | .date, .DATE => true
  | .time, .TIME => true
  | .decimal, .DECIMAL => true
  | .bigint, .BIGINT => true
  | .bit, .BIT => true
  | .notype, .NOTYPE => true
  | _, _ => false

/-- The (unique) precedence class an object belongs to. -/
def classOf : SqlType → PrecClass
  | .hexByteString => .HexByteString
  | .json => .JSON
  | .uniqueidentifier => .UNIQUEIDENTIFIER
  | .nvarchar _ => .NVARCHAR
  | .datetime => .DATETIME
  | .date => .DATE
  | .time => .TIME
  | .decimal => .DECIMAL
  | .bigint => .BIGINT
  | .bit => .BIT
  | .notype => .NOTYPE

/-- `SqlServerConnector.select_nvarchar_size` (connector.py:312-319):
`NVARCHAR(450)` for primary keys (900-byte clustered-index limit / 2 bytes
per character), unbounded `NVARCHAR()` otherwise. -/
def select_nvarchar_size (is_primary_key : Bool) : SqlType :=
  if is_primary_key then .nvarchar (some 450) else .nvarchar none

/-- The `precedence_order` list of `pick_best_sql_type`
(connector.py:292-305), in source order. -/
def precedence_order : List PrecClass :=
  [.HexByteString, .JSON, .UNIQUEIDENTIFIER, .NVARCHAR, .DATETIME, .DATE,
   .TIME, .DECIMAL, .BIGINT, .INTEGER, .BIT, .NOTYPE]

/-- The loop `for sql_type, obj in itertools.product(precedence_order,
sql_type_array): if isinstance(obj, sql_type): return obj` — `product`
iterates the precedence classes outermost, the array innermost, and the
first match is returned. -/
def scanPrecedence (sql_type_array : List SqlType) : List PrecClass → Option SqlType
  | [] => none
  | c :: cs =>
    match sql_type_array.find? (fun obj => isinstanceOf obj c) with
    | some obj => some obj
    | none => scanPrecedence sql_type_array cs

/-- `SqlServerConnector.pick_best_sql_type` (connector.py:282-310). -/
def pick_best_sql_type (sql_type_array : List SqlType) (is_primary_key : Bool) : SqlType :=
  match scanPrecedence sql_type_array precedence_order with
  | some obj => obj
  | none => select_nvarchar_size is_primary_key

/-! ## The Type Mapper (`to_sql_type`, `pick_individual_type`) -/

/-- The value of a JSON-schema `"type"` key: a single string or a list of
strings (`to_sql_type` raises on any other shape, which this embedding's
closed value type makes unrepresentable). -/
inductive JsonType where
  | str (s : String)
  | list (ls : List String)
deriving DecidableEq, Repr

/-- Python truthiness of `jsonschema_type.get("type", False)`: an absent
key, an empty string and an empty list are falsy. -/
def typeTruthy : Option JsonType → Bool
  | none => false
  | some (.str s) => !(s == "")
  | some (.list ls) => !ls.isEmpty

/-- Python truthiness of an optional string value fetched with
`.get(key, False)` (used for `"format"` and `"contentEncoding"`). -/
def strTruthy : Option String → Bool
  | none => false
  | some s => !(s == "")

/-- `charListPrefix needle l` : is `needle` a prefix of `l`? -/
def charListPrefix : List Char → List Char → Bool
  | [], _ => true
  | _ :: _, [] => false
  | a :: as, b :: bs => a == b && charListPrefix as bs

/-- `charListInfix needle l` : does `needle` occur contiguously in `l`? -/
def charListInfix (needle : List Char) : List Char → Bool
  | [] => needle.isEmpty
  | b :: bs => charListPrefix needle (b :: bs) || charListInfix needle bs

/-- Python `needle in haystack` where the haystack is a `"type"` value:
substring containment for a string, membership for a list (this is how
`pick_individual_type` tests `"null" in jsonschema_type["type"]` etc.). -/
def typeContains (t : JsonType) (needle : String) : Bool :=
  match t with
  | .str s => charListInfix needle.toList s.toList
  | .list ls => ls.contains needle

/-- One element of the `json_type_array` that `to_sql_type` builds and
feeds to `pick_individual_type`: a dict with a mandatory `"type"` key and
optional `"format"`, `"contentEncoding"` and `"items"` keys.  (Entries of
a top-level `anyOf` are passed through unchanged; `pick_individual_type`
reads only these four keys of them, so they are modelled flat.) -/
structure JsonSubschema where
  type : JsonType
  format : Option String := none
  contentEncoding : Option String := none
  itemsType : Option String := none
deriving DecidableEq, Repr

/-- A top-level JSON schema dict as consumed by `to_sql_type`:
optional `"type"` (string or list), `"format"`, `"contentEncoding"`,
`"items"` whose own `"type"` is a single string (`itemsType`), and
`"anyOf"`. -/
structure JsonSchema where
  type : Option JsonType := none
  format : Option String := none
  contentEncoding : Option String := none
  itemsType : Option String := none
  anyOf : Option (List JsonSubschema) := none
deriving DecidableEq, Repr

/-- Modelled from the spec: the baseline primitive-to-SQL mapping of the
external `singer_sdk.typing.to_sql_type` helper, which is imported as
`th.to_sql_type` (connector.py:275) but whose source is not part of this
repository.  Per spec section 4.1: string maps to unicode text, number to
decimal, boolean to single-bit; a string with a date-like `format` maps to
the date-time / date-only / time-only type (`"date-time"` is already
intercepted by `pick_individual_type`, so only `"time"` and `"date"` are
reachable here); anything unrecognized falls back to unicode text.  The
repository's own test `test_anyof` (string columns reflect as `NVARCHAR`)
corroborates this modelling. -/
def th_to_sql_type (j : JsonSubschema) : SqlType :=
  if typeContains j.type "string" then
    if j.format == some "date-time" then .datetime
    else if j.format == some "time" then .time
    else if j.format == some "date" then .date
    else .nvarchar none
  else if typeContains j.type "integer" then .bigint
  else if typeContains j.type "number" then .decimal
  else if typeContains j.type "boolean" then .bit
  else .nvarchar none

/-- `SqlServerConnector.pick_individual_type` (connector.py:247-280).
`none` models the Python `None` return for a null type (the caller drops
it).  `interpret_content_encoding` is the config flag read by the
`cached_property` of the same name (connector.py:62-72, default false). -/
def pick_individual_type (interpret_content_encoding : Bool)
    (jsonschema_type : JsonSubschema) (is_primary_key : Bool) : Option SqlType :=
  if typeContains jsonschema_type.type "null" then none
  else if typeContains jsonschema_type.type "integer" then some .bigint
  else if typeContains jsonschema_type.type "object" then some .json
  else if typeContains jsonschema_type.type "array" then some .json
  else if jsonschema_type.format == some "date-time" then some .datetime
  else if jsonschema_type.format == some "uuid" then some .uniqueidentifier
  else if interpret_content_encoding
      && (jsonschema_type.contentEncoding == some "base16") then
    some .hexByteString
  else
    match th_to_sql_type jsonschema_type with
    | .nvarchar _ => some (select_nvarchar_size is_primary_key)
    | t => some t

/-- The single-type dict that `to_sql_type` builds for one entry of a
list-valued `"type"` (connector.py:213-227): copy `"format"` and
`"contentEncoding"` only when truthy, and the single-string `items` type.
-/
def explode_type_entry (jsonschema_type : JsonSchema) (entry : String) : JsonSubschema :=
  { type := .str entry
    format := if strTruthy jsonschema_type.format then
        jsonschema_type.format else none
    contentEncoding := if strTruthy jsonschema_type.contentEncoding then
        jsonschema_type.contentEncoding else none
    itemsType := jsonschema_type.itemsType }

/-- `SqlServerConnector.to_sql_type` (connector.py:191-245): build
`json_type_array` (single-type schemas are passed whole; a list-valued
`"type"` is exploded via `explode_type_entry`; `anyOf` entries are taken
as-is), map each entry through `pick_individual_type` dropping `None`s,
and resolve with `pick_best_sql_type`.  A schema with neither a truthy
`"type"` nor a truthy `"anyOf"` returns `NOTYPE()`. -/
def to_sql_type (interpret_content_encoding : Bool)
    (jsonschema_type : JsonSchema) (is_primary_key : Bool) : SqlType :=
  if typeTruthy jsonschema_type.type then
    let json_type_array : List JsonSubschema :=
      match jsonschema_type.type with
      | some (.str s) =>
        [{ type := .str s, format := jsonschema_type.format,
           contentEncoding := jsonschema_type.contentEncoding,
           itemsType := jsonschema_type.itemsType }]
      | some (.list ls) =>
        ls.map (explode_type_entry jsonschema_type)
      | none => []
    let sql_type_array := json_type_array.filterMap
      (fun jt => pick_individual_type interpret_content_encoding jt is_primary_key)
    pick_best_sql_type sql_type_array is_primary_key
  else if (jsonschema_type.anyOf.getD []).isEmpty = false then
    let sql_type_array := (jsonschema_type.anyOf.getD []).filterMap
      (fun jt => pick_individual_type interpret_content_encoding jt is_primary_key)
    pick_best_sql_type sql_type_array is_primary_key
  else
    .notype

/-! ## Table creation (`create_empty_table`) -/

/-- The schema dict passed to `create_empty_table`: the `"properties"` key
(an ordered mapping from property name to property schema) may be
missing. -/
structure TableSchema where
  properties : Option (List (String × JsonSchema)) := none

/-- The outcome of a successful `create_empty_table`: the single CREATE
TABLE statement issued via `new_table.create(bind=connection)`, carrying
the table name (prefixed `#` for a temp table) and one column per
property, in property order, with its SQL type and primary-key flag
(`autoincrement=False` always). -/
structure CreatedTable where
  name : String
  columns : List (String × SqlType × Bool)
deriving DecidableEq, Repr

/-- `SqlServerConnector.create_empty_table` (connector.py:321-375).  A
schema without a `"properties"` key raises `RuntimeError` before any
column is built and before any DDL is issued; this is the `.error` branch
(the message's tail also interpolates the whole schema dict, elided
here).  Otherwise each property is typed via `to_sql_type` with
`is_primary_key = name ∈ primary_keys` and exactly one CREATE TABLE is
issued. -/
def create_empty_table (interpret_content_encoding : Bool) (table_name : String)
    (schema : TableSchema) (primary_keys : List String) (as_temp_table : Bool) :
    Except String CreatedTable :=
  match schema.properties with
  | none =>
    .error ("Schema for table_name: '" ++ table_name ++ "'"
      ++ "does not define properties: ")
  | some props =>
    let columns := props.map (fun p =>
      let is_primary_key := primary_keys.contains p.1
      (p.1, to_sql_type interpret_content_encoding p.2 is_primary_key, is_primary_key))
    .ok { name := if as_temp_table then "#" ++ table_name else table_name
          columns := columns }

/-! ## The Column Reconciler (`_adapt_column_type`, `_create_empty_column`)

`_adapt_column_type` delegates the actual type merge to
`self.merge_sql_types`, a method inherited from the external
`singer_sdk.SQLConnector` base class (not part of this repository), and
compares types by their Python `str(...)` rendering.  Both are kept
abstract: the embedding is parametrised over the type representation `T`,
the rendering function and the merge function, so the proved properties
hold for the actual inherited implementations whatever they compute. -/

/-- A column type together with the optional collation annotation that
`remove_collation` / `update_collation` (inherited SDK helpers) read and
write. Types without a `collation` attribute are modelled with `none`. -/
structure ColumnType (T : Type) where
  base : T
  collation : Option String := none
deriving DecidableEq, Repr

/-- The SDK's `remove_collation(current_type)`: if the type carries a
truthy collation, save it and strip it in place; returns the (possibly
stripped) type and the saved collation. -/
def remove_collation {T : Type} (c : ColumnType T) : ColumnType T × Option String :=
  match c.collation with
  | some s => if s = "" then (c, none) else ({ c with collation := none }, some s)
  | none => (c, none)

/-- The SDK's `update_collation(column_type, collation)`: reapply a truthy
saved collation to the type. -/
def update_collation {T : Type} (c : ColumnType T) (coll : String) : ColumnType T :=
  if coll = "" then c else { c with collation := some coll }

/-- The `NotImplementedError` message built at connector.py:545-549. -/
def alter_error_msg (schema_name table_name column_name current target : String) : String :=
  "Altering columns is not supported. Could not convert column '"
    ++ schema_name ++ "." ++ table_name ++ "." ++ column_name
    ++ "' from '" ++ current ++ "' to '" ++ target ++ "'."

/-- What `_adapt_column_type` does to the database: nothing, one ALTER
COLUMN statement (via `get_column_alter_ddl` + `connection.execute`), or a
raised `NotImplementedError`. -/
inductive AdaptAction (T : Type) where
  | noop
  | alterColumn (schema_name table_name column_name : String) (column_type : ColumnType T)
  | raiseNotImplemented (msg : String)
deriving DecidableEq

/-- `SqlServerConnector._adapt_column_type` (connector.py:490-558), for an
already-fetched current column type.  `strCT` is Python `str(...)` on a
type object and `merge_sql_types` the inherited SDK merge, both abstract.
Control flow of the source: strip collation from `current_type` (in
place), no-op if the renderings already agree, otherwise merge
`[current_type, sql_type]`, no-op if the merged rendering equals the
current one, otherwise reapply the saved collation to the merged type,
raise if `allow_column_alter` is false, else issue the ALTER. -/
def adapt_column_type {T : Type} (strCT : ColumnType T → String)
    (merge_sql_types : List (ColumnType T) → ColumnType T)
    (allow_alter : Bool) (schema_name table_name column_name : String)
    (sql_type current_type0 : ColumnType T) : AdaptAction T :=
  let stripped := remove_collation current_type0
  let current_type := stripped.1
  let current_type_collation := stripped.2
  if strCT sql_type = strCT current_type then .noop
  else
    let compatible_sql_type := merge_sql_types [current_type, sql_type]
    if strCT compatible_sql_type = strCT current_type then .noop
    else
      let compatible_sql_type := match current_type_collation with
        | some coll => update_collation compatible_sql_type coll
        | none => compatible_sql_type
      if !allow_alter then
        .raiseNotImplemented (alter_error_msg schema_name table_name column_name
          (strCT current_type) (strCT compatible_sql_type))
      else
        .alterColumn schema_name table_name column_name compatible_sql_type

/-- The merged type with the saved collation of the current type
reapplied — the value `_adapt_column_type` alters to (and names in its
error message). -/
def merged_with_collation {T : Type} (merge_sql_types : List (ColumnType T) → ColumnType T)
    (sql_type current_type0 : ColumnType T) : ColumnType T :=
  match (remove_collation current_type0).2 with
  | some coll => update_collation (merge_sql_types [(remove_collation current_type0).1, sql_type]) coll
  | none => merge_sql_types [(remove_collation current_type0).1, sql_type]

/-- The class-attribute policy defaults of `SqlServerConnector`
(connector.py:43-47). -/
def allow_column_add : Bool := true

/-- `SqlServerConnector.allow_column_alter` default (connector.py:45). -/
def allow_column_alter : Bool := false

/-- The DDL text of `get_column_add_ddl` (connector.py:457-488), with the
column name and type already rendered through the dialect. -/
def column_add_ddl_text (schema_name table_name column_name column_type : String) : String :=
  "ALTER TABLE \x22" ++ schema_name ++ "\x22.\x22" ++ table_name ++ "\x22 ADD "
    ++ column_name ++ " " ++ column_type

/-- What `_create_empty_column` does: execute one ADD COLUMN statement or
raise `NotImplementedError`. -/
inductive ColumnAddAction where
  | execute (ddl : String)
  | raiseNotImplemented (msg : String)
deriving DecidableEq, Repr

/-- `SqlServerConnector._create_empty_column` (connector.py:425-455) with
the column name and type pre-rendered. -/
def create_empty_column (allow_add : Bool)
    (schema_name table_name column_name column_type : String) : ColumnAddAction :=
  if !allow_add then .raiseNotImplemented "Adding columns is not supported."
  else .execute (column_add_ddl_text schema_name table_name column_name column_type)

/-! ## Target construction checks (`SqlServerTarget.__init__`) -/

/-- The configuration keys read by the two `assert` statements of
`SqlServerTarget.__init__` (target.py:45-62).  `add_record_metadata` and
`activate_version` both default to `true` in `config_jsonschema`. -/
structure TargetConfig where
  sqlalchemy_url : Option String := none
  host : Option String := none
  port : Option Nat := none
  user : Option String := none
  password : Option String := none
  dialect_driver : Option String := none
  add_record_metadata : Bool := true
  activate_version : Bool := true

/-- The first `assert` of `SqlServerTarget.__init__` (target.py:45-54):
either `sqlalchemy_url` or the full host/port/user/password/driver set
must be present. -/
def conn_config_ok (cfg : TargetConfig) : Bool :=
  cfg.sqlalchemy_url.isSome
    || (cfg.host.isSome && cfg.port.isSome && cfg.user.isSome
        && cfg.password.isSome && cfg.dialect_driver.isSome)

/-- The message of the activate-version `assert` (target.py:56-62). -/
def activate_version_assert_msg : String :=
  "Activate version messages can't be processed unless add_record_metadata "
    ++ "is set to true. To ignore Activate version messages instead, Set the "
    ++ "`activate_version` configuration to False."

/-- The two construction-time `assert`s of `SqlServerTarget.__init__`
(target.py:45-62), run in source order before any data flows; an
`AssertionError` is modelled as `.error` with the assert's message. -/
def target_init_check (cfg : TargetConfig) : Except String Unit :=
  if !conn_config_ok cfg then
    .error ("Need either the sqlalchemy_url to be set or host, port, user,"
      ++ "password, dialect+driver to be set")
  else if !(cfg.add_record_metadata || !cfg.activate_version) then
    .error activate_version_assert_msg
  else
    .ok ()

/-! ## Claims about the Type Merger -/

/-- The precedence order exactly as the specification's claim states it
(eleven entries, highest to lowest): fixed-binary-from-hex, JSON-as-text,
unique-identifier, unicode-text, date-time, date-only, time-only, decimal,
64-bit-integer, single-bit, untyped/unknown.  Unlike the source's
`precedence_order` it has no plain-`INTEGER` entry. -/
def claim_precedence_order : List PrecClass :=
  [.HexByteString, .JSON, .UNIQUEIDENTIFIER, .NVARCHAR, .DATETIME, .DATE,
   .TIME, .DECIMAL, .BIGINT, .BIT, .NOTYPE]

/-- The Type Merger as the specification's words describe it: scan
`claim_precedence_order` top to bottom and return the first input type
matching the scanned class; if no input type matches any entry, fall back
to the unicode-text type sized by the primary-key rule. -/
def pickBestSpec (sql_type_array : List SqlType) (is_primary_key : Bool) : SqlType :=
  match scanPrecedence sql_type_array claim_precedence_order with
  | some obj => obj
  | none => select_nvarchar_size is_primary_key

/-- No object of the connector's type universe is an `isinstance` of the
plain-`INTEGER` entry of the source precedence list. -/
theorem find?_INTEGER_eq_none (arr : List SqlType) :
    arr.find? (fun obj => isinstanceOf obj PrecClass.INTEGER) = none := by
  induction arr with
  | nil => rfl
  | cons x xs ih =>
    have hx : isinstanceOf x PrecClass.INTEGER = false := by cases x <;> rfl
    simp [List.find?, hx, ih]

/-- C1: for every non-empty array of SqlTypes, `pick_best_sql_type`
returns the first input type whose class appears highest in the claimed
eleven-entry precedence order (fixed-binary-from-hex, JSON-as-text,
unique-identifier, unicode-text, date-time, date-only, time-only, decimal,
64-bit-integer, single-bit, untyped/unknown), falling back to the
unicode-text type sized by the primary-key rule when no input matches any
precedence entry: the source's twelve-entry scan (with its extra, never
matched `INTEGER` entry) computes exactly the claimed merger. -/
theorem pick_best_sql_type_follows_claim_precedence (arr : List SqlType) (pk : Bool)
    (_h : arr ≠ []) : pick_best_sql_type arr pk = pickBestSpec arr pk := by
  have hint := find?_INTEGER_eq_none arr
  unfold pick_best_sql_type pickBestSpec precedence_order claim_precedence_order
  simp only [scanPrecedence, hint]

/-- C1 witness: the merger agrees with the claimed precedence scan on the
concrete non-empty input `[BIGINT(), NVARCHAR()]`. -/
theorem pick_best_sql_type_follows_claim_precedence_witness :
    ([SqlType.bigint, SqlType.nvarchar none] ≠ ([] : List SqlType))
    ∧ pick_best_sql_type [SqlType.bigint, SqlType.nvarchar none] false =
        pickBestSpec [SqlType.bigint, SqlType.nvarchar none] false :=
  ⟨by decide,
   pick_best_sql_type_follows_claim_precedence [SqlType.bigint, SqlType.nvarchar none]
     false (by decide)⟩

/-- C2 counterexample: merging `[NVARCHAR(450), NVARCHAR()]` is not
order-independent — the scan returns whichever `NVARCHAR` comes first, and
`NVARCHAR(450)` and unbounded `NVARCHAR()` are different SqlTypes. -/
theorem pick_best_pair_not_comm :
    pick_best_sql_type [SqlType.nvarchar (some 450), SqlType.nvarchar none] false ≠
      pick_best_sql_type [SqlType.nvarchar none, SqlType.nvarchar (some 450)] false := by
  decide

/-- C2 amended: merging `[a, b]` and `[b, a]` agree whenever `a` and `b`
belong to different precedence classes (or are the same SqlType); when
they share a class but differ in length parameters the merge returns the
first input and is order-dependent. -/
theorem pick_best_pair_comm_of_distinct_class (a b : SqlType) (pk : Bool)
    (h : classOf a ≠ classOf b ∨ a = b) :
    pick_best_sql_type [a, b] pk = pick_best_sql_type [b, a] pk := by
  rcases h with h | rfl
  · cases a <;> cases b <;> simp only [classOf] at h <;>
      first
        | rfl
        | exact absurd rfl h
  · rfl

/-- C2 amended witness: `BIGINT()` and unbounded `NVARCHAR()` are of
different precedence classes and merge order-independently. -/
theorem pick_best_pair_comm_of_distinct_class_witness :
    (classOf SqlType.bigint ≠ classOf (SqlType.nvarchar none)
      ∨ SqlType.bigint = SqlType.nvarchar none)
    ∧ pick_best_sql_type [SqlType.bigint, SqlType.nvarchar none] true =
        pick_best_sql_type [SqlType.nvarchar none, SqlType.bigint] true :=
  ⟨Or.inl (by decide),
   pick_best_pair_comm_of_distinct_class SqlType.bigint (SqlType.nvarchar none) true
     (Or.inl (by decide))⟩

/-- C6: merging a singleton `[x]` returns `x` itself, for every SqlType
`x` of the connector's universe (each of which belongs to a precedence
class). -/
theorem pick_best_singleton (x : SqlType) (pk : Bool) :
    pick_best_sql_type [x] pk = x := by
  cases x <;> rfl

/-! ## Claims about the Type Mapper -/

/-- Evaluation of the mapper on a plain string schema (no `format`, no
`contentEncoding`): the baseline unicode-text result is resized by
`select_nvarchar_size`, whatever the `items` and `anyOf` keys hold. -/
theorem to_sql_type_plain_string_eval (ice pk : Bool) (it : Option String)
    (ao : Option (List JsonSubschema)) :
    to_sql_type ice { type := some (.str "string"), itemsType := it, anyOf := ao } pk
      = select_nvarchar_size pk := by
  cases ice <;> cases pk <;> rfl

/-- C3: `to_sql_type` on the union schema `{"type": ["integer",
"string"]}` with `is_primary_key = false` returns the unbounded
unicode-text type `NVARCHAR()` — the `NVARCHAR` precedence entry outranks
`BIGINT` — for either value of the `interpret_content_encoding` flag. -/
theorem to_sql_type_integer_string_union (ice : Bool) :
    to_sql_type ice { type := some (.list ["integer", "string"]) } false
      = SqlType.nvarchar none := by
  cases ice <;> rfl

/-- C4: on every plain string-typed schema (type `"string"`, no `format`,
no `contentEncoding` — date/uuid/hex-formatted strings are distinct
logical types per the mapper's earlier rules), `to_sql_type` returns
`NVARCHAR(450)` when the column is a primary key and unbounded
`NVARCHAR()` otherwise. -/
theorem to_sql_type_string_primary_key_rule (j : JsonSchema) (ice : Bool)
    (ht : j.type = some (.str "string")) (hf : j.format = none)
    (hc : j.contentEncoding = none) :
    to_sql_type ice j true = SqlType.nvarchar (some 450)
    ∧ to_sql_type ice j false = SqlType.nvarchar none := by
  have hj : j = { type := some (.str "string"), itemsType := j.itemsType, anyOf := j.anyOf } := by
    cases j
    simp_all
  rw [hj]
  exact ⟨to_sql_type_plain_string_eval ice true _ _,
    to_sql_type_plain_string_eval ice false _ _⟩

/-- C4 witness: the schema `{"type": "string"}` satisfies the
hypotheses and maps to `NVARCHAR(450)` / `NVARCHAR()`. -/
theorem to_sql_type_string_primary_key_rule_witness :
    ({ type := some (.str "string") } : JsonSchema).type = some (.str "string")
    ∧ ({ type := some (.str "string") } : JsonSchema).format = none
    ∧ ({ type := some (.str "string") } : JsonSchema).contentEncoding = none
    ∧ (to_sql_type false { type := some (.str "string") } true = SqlType.nvarchar (some 450)
       ∧ to_sql_type false { type := some (.str "string") } false = SqlType.nvarchar none) :=
  ⟨rfl, rfl, rfl, to_sql_type_string_primary_key_rule { type := some (.str "string") }
    false rfl rfl rfl⟩

/-! ## Claims about table creation and target construction -/

/-- C8: `create_empty_table` on a schema dict lacking a `properties` key
returns the invalid-schema error naming the table, before building any
column and before issuing any DDL — no table (not even a zero-column one)
is created, for any table name, primary keys, temp-table flag or
configuration. -/
theorem create_empty_table_missing_properties (ice : Bool) (table_name : String)
    (schema : TableSchema) (primary_keys : List String) (as_temp_table : Bool)
    (h : schema.properties = none) :
    create_empty_table ice table_name schema primary_keys as_temp_table =
      .error ("Schema for table_name: '" ++ table_name ++ "'"
        ++ "does not define properties: ") := by
  unfold create_empty_table
  rw [h]

/-- C8 witness: creating from the empty schema dict errors out. -/
theorem create_empty_table_missing_properties_witness :
    ({} : TableSchema).properties = none
    ∧ create_empty_table false "t1" {} [] false =
        .error ("Schema for table_name: '" ++ "t1" ++ "'"
          ++ "does not define properties: ") :=
  ⟨rfl, create_empty_table_missing_properties false "t1" {} [] false rfl⟩

/-- C9: with the connection settings satisfied, target construction fails
its activate-version assert exactly when `activate_version` is enabled and
`add_record_metadata` is disabled; construction passes both asserts
whenever `add_record_metadata` is enabled or `activate_version` is
disabled.  The check runs inside `__init__`, before any data flows. -/
theorem target_init_activate_version_check (cfg : TargetConfig)
    (hconn : conn_config_ok cfg = true) :
    (target_init_check cfg = .ok () ↔
      (cfg.add_record_metadata = true ∨ cfg.activate_version = false))
    ∧ (cfg.activate_version = true → cfg.add_record_metadata = false →
        target_init_check cfg = .error activate_version_assert_msg) := by
  unfold target_init_check
  rw [hconn]
  cases hm : cfg.add_record_metadata <;> cases hv : cfg.activate_version <;> simp

/-- A concrete misconfiguration: URL present, metadata capability off,
activate-version on. -/
def cfg_bad_activate : TargetConfig :=
  { sqlalchemy_url := some "mssql+pymssql://sa:pw@h:1433/db"
    add_record_metadata := false
    activate_version := true }

/-- C9 witness: `cfg_bad_activate` satisfies the connection assert and
fails construction on the activate-version assert; the iff confirms it is
not accepted. -/
theorem target_init_activate_version_check_witness :
    conn_config_ok cfg_bad_activate = true
    ∧ ((target_init_check cfg_bad_activate = .ok () ↔
          (cfg_bad_activate.add_record_metadata = true
            ∨ cfg_bad_activate.activate_version = false))
        ∧ (cfg_bad_activate.activate_version = true →
           cfg_bad_activate.add_record_metadata = false →
           target_init_check cfg_bad_activate = .error activate_version_assert_msg)) :=
  ⟨rfl, target_init_activate_version_check cfg_bad_activate rfl⟩

/-! ## Claims about the Column Reconciler -/

/-- C5: for every type representation, rendering and inherited merge
function, (a) when the merge of the collation-stripped current type with
the required type renders equal to the current type, `_adapt_column_type`
is a no-op — no DDL, no error, whatever the alteration policy; (b) when
the required and merged types both render differently from the current
type and column alteration is disabled, it raises the
`NotImplementedError` whose message names `schema.table.column`, the
current type and the target type, and emits no DDL. -/
theorem adapt_column_type_policy {T : Type} (strCT : ColumnType T → String)
    (merge_sql_types : List (ColumnType T) → ColumnType T) (allow_alter : Bool)
    (schema_name table_name column_name : String)
    (sql_type current_type0 : ColumnType T) :
    (strCT (merge_sql_types [(remove_collation current_type0).1, sql_type]) =
        strCT (remove_collation current_type0).1 →
      adapt_column_type strCT merge_sql_types allow_alter schema_name table_name
        column_name sql_type current_type0 = .noop)
    ∧ (strCT sql_type ≠ strCT (remove_collation current_type0).1 →
       strCT (merge_sql_types [(remove_collation current_type0).1, sql_type]) ≠
          strCT (remove_collation current_type0).1 →
      adapt_column_type strCT merge_sql_types false schema_name table_name
        column_name sql_type current_type0 =
        .raiseNotImplemented (alter_error_msg schema_name table_name column_name
          (strCT (remove_collation current_type0).1)
          (strCT (merged_with_collation merge_sql_types sql_type current_type0)))) := by
  unfold adapt_column_type merged_with_collation
  constructor
  · intro hmerge
    by_cases hsql : strCT sql_type = strCT (remove_collation current_type0).1 <;>
      simp [hsql, hmerge]
  · intro hsql hmerge
    simp [hsql, hmerge]

/-- C5 witness: with a string representation rendered by identity, a merge
returning the current type is a no-op, and a merge returning a third type
under `allow_alter = false` raises the message naming table, column,
current and target types. -/
theorem adapt_column_type_policy_witness :
    (adapt_column_type (fun c => c.base)
        (fun _ => ({ base := "NVARCHAR" } : ColumnType String)) true "dbo" "tbl" "col"
        { base := "BIGINT" } { base := "NVARCHAR" } = .noop)
    ∧ (adapt_column_type (fun c => c.base)
        (fun _ => ({ base := "NVARCHAR(MAX)" } : ColumnType String)) false "dbo" "tbl" "col"
        { base := "BIGINT" } { base := "NVARCHAR" } =
        .raiseNotImplemented (alter_error_msg "dbo" "tbl" "col" "NVARCHAR" "NVARCHAR(MAX)")) :=
  ⟨(adapt_column_type_policy (fun c => c.base)
      (fun _ => ({ base := "NVARCHAR" } : ColumnType String)) true "dbo" "tbl" "col"
      { base := "BIGINT" } { base := "NVARCHAR" }).1 rfl,
   (adapt_column_type_policy (fun c => c.base)
      (fun _ => ({ base := "NVARCHAR(MAX)" } : ColumnType String)) false "dbo" "tbl" "col"
      { base := "BIGINT" } { base := "NVARCHAR" }).2 (by decide) (by decide)⟩

/-- C10: the class-attribute defaults leave `allow_column_add = true` and
`allow_column_alter = false`; under these defaults `_adapt_column_type`
raises the alteration-not-supported error (and emits no ALTER) whenever
the required and merged types render differently from the current one,
while `_create_empty_column` executes the ADD COLUMN DDL. -/
theorem default_policy_alter_raises_add_succeeds :
    allow_column_add = true
    ∧ allow_column_alter = false
    ∧ (∀ (T : Type) (strCT : ColumnType T → String)
        (merge_sql_types : List (ColumnType T) → ColumnType T)
        (schema_name table_name column_name : String)
        (sql_type current_type0 : ColumnType T),
        strCT sql_type ≠ strCT (remove_collation current_type0).1 →
        strCT (merge_sql_types [(remove_collation current_type0).1, sql_type]) ≠
            strCT (remove_collation current_type0).1 →
        adapt_column_type strCT merge_sql_types allow_column_alter schema_name
          table_name column_name sql_type current_type0 =
          .raiseNotImplemented (alter_error_msg schema_name table_name column_name
            (strCT (remove_collation current_type0).1)
            (strCT (merged_with_collation merge_sql_types sql_type current_type0))))
    ∧ (∀ schema_name table_name column_name column_type : String,
        create_empty_column allow_column_add schema_name table_name column_name
          column_type =
          .execute (column_add_ddl_text schema_name table_name column_name column_type)) := by
  refine ⟨rfl, rfl, ?_, fun _ _ _ _ => rfl⟩
  intro T strCT merge_sql_types sn tn cn sql cur hsql hmerge
  exact (adapt_column_type_policy strCT merge_sql_types false sn tn cn sql cur).2 hsql hmerge

/-- C10 witness: the default-policy behavior at concrete inputs — the
alteration raise and the successful column add. -/
theorem default_policy_alter_raises_add_succeeds_witness :
    (( "BIGINT" : String) ≠ "NVARCHAR"
      ∧ ("NVARCHAR(MAX)" : String) ≠ "NVARCHAR"
      ∧ adapt_column_type (fun (c : ColumnType String) => c.base)
          (fun _ => ({ base := "NVARCHAR(MAX)" } : ColumnType String))
          allow_column_alter "dbo" "tbl" "col" { base := "BIGINT" } { base := "NVARCHAR" } =
          .raiseNotImplemented (alter_error_msg "dbo" "tbl" "col" "NVARCHAR" "NVARCHAR(MAX)"))
    ∧ create_empty_column allow_column_add "dbo" "tbl" "c2" "BIGINT" =
        .execute (column_add_ddl_text "dbo" "tbl" "c2" "BIGINT") :=
  ⟨⟨by decide, by decide,
    default_policy_alter_raises_add_succeeds.2.2.1 String (fun c => c.base)
      (fun _ => ({ base := "NVARCHAR(MAX)" } : ColumnType String)) "dbo" "tbl" "col"
      { base := "BIGINT" } { base := "NVARCHAR" } (by decide) (by decide)⟩,
   default_policy_alter_raises_add_succeeds.2.2.2 "dbo" "tbl" "c2" "BIGINT"⟩

/-! ## The all-null-union claim -/

/-- C7 counterexample: `to_sql_type` on the all-null union
`{"type": ["null"]}` returns unbounded `NVARCHAR()` — every alternative
is dropped, `pick_best_sql_type([])`'s loop body never runs and the
`select_nvarchar_size` fallback fires — not the claimed `NOTYPE`. -/
theorem to_sql_type_all_null_union_not_notype :
    to_sql_type false { type := some (.list ["null"]) } false = SqlType.nvarchar none
    ∧ SqlType.nvarchar none ≠ SqlType.notype :=
  ⟨rfl, by decide⟩

/-- A subschema whose `"type"` is the single string `"null"` is dropped by
`pick_individual_type` (returns Python `None`). -/
theorem pick_individual_type_null (ice pk : Bool) (j : JsonSubschema)
    (h : j.type = .str "null") : pick_individual_type ice j pk = none := by
  unfold pick_individual_type
  rw [h]
  rfl

/-- Mapping a list of `"null"`-typed entries through any `G` that sends
them to `none` filter-maps to the empty array. -/
theorem filterMap_null_entries (G : String → Option SqlType)
    (hG : G "null" = none) :
    ∀ ls : List String, (∀ s ∈ ls, s = "null") → ls.filterMap G = [] := by
  intro ls
  induction ls with
  | nil => intro _; rfl
  | cons a as ih =>
    intro h
    have ha : a = "null" := h a (List.mem_cons_self a as)
    have hrest := ih (fun s hs => h s (List.mem_cons_of_mem a hs))
    simp [List.filterMap_cons, ha, hG, hrest]

/-- C7 amended: a union-typed schema all of whose alternatives are null
maps to the unicode-text type sized by the primary-key rule (the
`pick_best_sql_type` fallback on the empty merged array), not to the
untyped/unknown `NOTYPE` the spec claims. -/
theorem to_sql_type_all_null_union (ice : Bool) (ls : List String)
    (fmt enc it : Option String) (ao : Option (List JsonSubschema)) (pk : Bool)
    (hne : ls ≠ []) (hall : ∀ s ∈ ls, s = "null") :
    to_sql_type ice { type := some (.list ls), format := fmt, contentEncoding := enc, itemsType := it, anyOf := ao } pk
      = select_nvarchar_size pk := by
  have h1 : typeTruthy (some (JsonType.list ls)) = true := by
    cases ls with
    | nil => exact absurd rfl hne
    | cons a as => rfl
  have h2 : (ls.map (explode_type_entry { type := some (.list ls), format := fmt, contentEncoding := enc, itemsType := it, anyOf := ao })).filterMap
        (fun jt => pick_individual_type ice jt pk) = [] := by
    rw [List.filterMap_map]
    exact filterMap_null_entries _ (pick_individual_type_null ice pk _ rfl) ls hall
  simp [to_sql_type, h1, h2]
  rfl

/-- C7 amended witness: the concrete all-null union `{"type": ["null"]}`
for a primary-key column maps to `NVARCHAR(450)`. -/
theorem to_sql_type_all_null_union_witness :
    (["null"] : List String) ≠ []
    ∧ (∀ s ∈ (["null"] : List String), s = "null")
    ∧ to_sql_type false { type := some (.list ["null"]) } true = select_nvarchar_size true :=
  ⟨by decide, by decide,
   to_sql_type_all_null_union false ["null"] none none none none true (by decide) (by decide)⟩
